import Mathlib

/-!
Verification development for the authentication session lifecycle manager of
the terera application (Spotify OAuth client).

The definitions below are a shallow embedding of the JavaScript sources:

* `src/lib/auth/pkce.js` — PKCE pair, anti-CSRF state, session storage helpers
* `src/lib/services/spotifyApi.js` — the `SpotifyApiClient` class: token
  storage, `isAuthenticated`, `initiateAuth`, `handleAuthCallback`,
  `setTokens`, `refreshAccessToken`, `makeApiRequest`
* `src/lib/contexts/SpotifyAuthContext.jsx` — the React auth provider:
  `checkAuthStatus` and the `refreshToken` wrapper
* `src/app/api/auth/callback/spotify/route.js` — the server-side GET
  callback route

JavaScript conventions mapped into Lean:

* nullable string fields become `Option String`; JS truthiness of a string
  (`null`, `undefined` and `""` are falsy) is `truthyStr`;
* instants (`Date` values) become `Int` epoch milliseconds;
* `fetch` calls are abstracted by response oracles supplied as arguments;
  every function that can hit the network also returns the number of
  requests it issued, so request counts are provable;
* thrown exceptions become `Except String` results;
* the cooperative event loop is modelled for the refresh operation by
  splitting `refreshAccessToken` at its `await fetch` suspension point into
  a synchronous prefix and a resumption, with an explicit two-task world.
-/

namespace Terera

/-- JS truthiness of a nullable string: `null`/`undefined` and the empty
string are falsy, every other string is truthy. -/
def truthyStr : Option String → Bool
  | none => false
  | some s => decide (s ≠ "")

/-- In-memory token fields of the `SpotifyApiClient` class
(`this.accessToken`, `this.refreshToken`, `this.tokenExpiry`). -/
structure ClientState where
  accessToken : Option String
  refreshToken : Option String
  tokenExpiry : Option Int
  deriving Repr, DecidableEq

/-- The client together with the durable store: `store` models the
`spotify_tokens` entry of `localStorage` (absent or a serialized copy of the
token fields). -/
structure Client where
  state : ClientState
  store : Option ClientState
  deriving Repr, DecidableEq

/-- Token endpoint response body (`{access_token, refresh_token, expires_in}`);
`refresh_token` is optional in refresh responses. -/
structure TokenResponse where
  access_token : String
  refresh_token : Option String
  expires_in : Int
  deriving Repr, DecidableEq

/-- Outcome of a `fetch` against the token endpoint: a 2xx response with a
JSON body, or a failure (a non-ok status or a network error — both reach the
same `catch` in the source). -/
inductive TokenFetchResult where
  | success (tokens : TokenResponse)
  | failure
  deriving Repr, DecidableEq

/-- Model of `clearStoredTokens` (spotifyApi.js): removes the `localStorage` entry and
nulls the three in-memory fields. -/
def clearStoredTokens (_c : Client) : Client :=
  { state := ⟨none, none, none⟩, store := none }

/-- Model of `saveTokensToStorage` (spotifyApi.js): writes the token fields to
`localStorage`, but only when `this.accessToken` is truthy. -/
def saveTokensToStorage (c : Client) : Client :=
  if truthyStr c.state.accessToken then { c with store := some c.state } else c

/-- Model of `setTokens` (spotifyApi.js): installs a token-endpoint response,
computing the expiry as `Date.now() + expires_in * 1000`, then persists. -/
def setTokens (c : Client) (tokens : TokenResponse) (now : Int) : Client :=
  saveTokensToStorage
    { c with
      state :=
        { accessToken := some tokens.access_token
          refreshToken := tokens.refresh_token
          tokenExpiry := some (now + tokens.expires_in * 1000) } }

/-- Model of `isAuthenticated` (spotifyApi.js):
`!!(this.accessToken && this.tokenExpiry && new Date() < this.tokenExpiry)`.
A `Date` object is always truthy, so the middle conjunct is presence of the
expiry; the string conjunct is JS truthiness. -/
def isAuthenticated (s : ClientState) (now : Int) : Bool :=
  truthyStr s.accessToken &&
    (match s.tokenExpiry with
     | some e => decide (now < e)
     | none => false)

/-- JS `a || b` on nullable strings: the left operand wins when it is truthy
(`""` falls through to the right operand). -/
def jsOr (a b : Option String) : Option String :=
  match a with
  | some s => if s = "" then b else some s
  | none => b

/-- Synchronous prefix of `refreshAccessToken` (spotifyApi.js), up to its
`await fetch` suspension point: the guard `if (!this.refreshToken) throw`.
Returns `none` when the fetch is issued, `some msg` on the immediate throw. -/
def refreshPrefix (c : Client) : Option String :=
  if truthyStr c.state.refreshToken then none
  else some "No refresh token available"

/-- Resumption of `refreshAccessToken` after the token fetch settles: on a
2xx response, install the tokens keeping the existing refresh token when the
response carries none (`tokens.refresh_token || this.refreshToken`); on a
failure, clear the stored tokens and rethrow. -/
def refreshResume (c : Client) (now : Int) :
    TokenFetchResult → Except String Bool × Client
  | .success tokens =>
      (.ok true,
        setTokens c
          { tokens with refresh_token := jsOr tokens.refresh_token c.state.refreshToken }
          now)
  | .failure => (.error "Token refresh failed", clearStoredTokens c)

/-- Model of `refreshAccessToken` (spotifyApi.js) run to completion against a given
token-endpoint response. The final component counts token-endpoint requests
issued by the call (0 or 1). -/
def refreshAccessToken (c : Client) (now : Int) (resp : TokenFetchResult) :
    Except String Bool × Client × Nat :=
  match refreshPrefix c with
  | some e => (.error e, c, 0)
  | none =>
      let rc := refreshResume c now resp
      (rc.1, rc.2, 1)

/-- Character table of `generateRandomString` (pkce.js): the unreserved
URL-safe alphabet `A-Z a-z 0-9 - . _ ~` (66 characters). -/
def possibleChars : List Char :=
  "ABCDEFGHIJKLMNOPQRSTUVWXYZabcdefghijklmnopqrstuvwxyz0123456789-._~".toList

/-- Model of `generateRandomString` (pkce.js): one character per random byte, indexed
by `x % possible.length`. The random source `crypto.getRandomValues` is
modelled as a byte stream `rnd`. -/
def generateRandomString (length : Nat) (rnd : Nat → Nat) : String :=
  String.mk ((List.range length).map (fun i => possibleChars.getD (rnd i % possibleChars.length) 'A'))

/-- Character table of `btoa`, the standard base64 alphabet. -/
def base64Chars : List Char :=
  "ABCDEFGHIJKLMNOPQRSTUVWXYZabcdefghijklmnopqrstuvwxyz0123456789+/".toList

/-- Base64 encoding of a byte list (the `btoa(binary)` call in
`base64urlEncode`), chunked three bytes into four characters with `=`
padding; `% 256` reflects the `Uint8Array` view of the buffer. -/
def base64EncodeChunks : List Nat → List Char
  | [] => []
  | [b0] =>
      let x0 := b0 % 256
      [base64Chars.getD (x0 / 4) 'A', base64Chars.getD (x0 % 4 * 16) 'A', '=', '=']
  | [b0, b1] =>
      let x0 := b0 % 256
      let x1 := b1 % 256
      [base64Chars.getD (x0 / 4) 'A', base64Chars.getD (x0 % 4 * 16 + x1 / 16) 'A',
        base64Chars.getD (x1 % 16 * 4) 'A', '=']
  | b0 :: b1 :: b2 :: rest =>
      let x0 := b0 % 256
      let x1 := b1 % 256
      let x2 := b2 % 256
      base64Chars.getD (x0 / 4) 'A' :: base64Chars.getD (x0 % 4 * 16 + x1 / 16) 'A' ::
        base64Chars.getD (x1 % 16 * 4 + x2 / 64) 'A' :: base64Chars.getD (x2 % 64) 'A' ::
        base64EncodeChunks rest

/-- First `.replace` pass of `base64urlEncode`: `+` becomes `-`. -/
def replacePlus (ch : Char) : Char := if ch = '+' then '-' else ch

/-- Second `.replace` pass of `base64urlEncode`: `/` becomes `_`. -/
def replaceSlash (ch : Char) : Char := if ch = '/' then '_' else ch

/-- Model of `base64urlEncode` (pkce.js): `btoa` of the bytes, then the three
`.replace` passes (`+` to `-`, `/` to `_`, `=` removed). -/
def base64urlEncode (bytes : List Nat) : String :=
  String.mk
    ((((base64EncodeChunks bytes).map replacePlus).map replaceSlash).filter
      (fun ch => decide (ch ≠ '=')))

/-- Model of `sha256` (pkce.js): SHA-256 digest of the text, base64url-encoded. The
platform primitive `crypto.subtle.digest` is abstracted as the byte-level
function `digest`. -/
def sha256 (digest : String → List Nat) (plain : String) : String :=
  base64urlEncode (digest plain)

/-- Model of `generatePKCEPair` (pkce.js): a 128-character random verifier and the
base64url-encoded SHA-256 challenge derived from it. -/
def generatePKCEPair (rnd : Nat → Nat) (digest : String → List Nat) : String × String :=
  let codeVerifier := generateRandomString 128 rnd
  let codeChallenge := sha256 digest codeVerifier
  (codeVerifier, codeChallenge)

/-- Model of `generateState` (pkce.js): a 16-character random anti-CSRF token. -/
def generateState (rnd : Nat → Nat) : String := generateRandomString 16 rnd

/-- The `sessionStorage` entries used by pkce.js: the OAuth state under
`spotify_oauth_state` and the PKCE verifier under `spotify_code_verifier`. -/
structure SessionStore where
  oauthState : Option String
  codeVerifier : Option String
  deriving Repr, DecidableEq

/-- Model of `storeState` (pkce.js). -/
def storeState (ss : SessionStore) (state : String) : SessionStore :=
  { ss with oauthState := some state }

/-- Model of `retrieveState` (pkce.js): reads the stored OAuth state and removes it
from session storage in the same call. -/
def retrieveState (ss : SessionStore) : Option String × SessionStore :=
  (ss.oauthState, { ss with oauthState := none })

/-- Model of `storePKCEVerifier` (pkce.js). -/
def storePKCEVerifier (ss : SessionStore) (codeVerifier : String) : SessionStore :=
  { ss with codeVerifier := some codeVerifier }

/-- Model of `retrievePKCEVerifier` (pkce.js): reads the stored verifier and removes
it from session storage in the same call. -/
def retrievePKCEVerifier (ss : SessionStore) : Option String × SessionStore :=
  (ss.codeVerifier, { ss with codeVerifier := none })

/-- Configuration fields of `getSpotifyConfig` used by the client flows. -/
structure SpotifyConfig where
  clientId : String
  scopes : String
  redirectUri : String
  deriving Repr, DecidableEq

/-- Model of `initiateAuth` (spotifyApi.js): generates and stores the anti-CSRF
state, validates the configuration (client-side check of the client id),
and builds the authorization query string, in source order. The result is
the `URLSearchParams` key/value list of the authorization redirect. -/
def initiateAuth (cfg : SpotifyConfig) (rnd : Nat → Nat) (ss : SessionStore) :
    Except String (List (String × String)) × SessionStore :=
  let state := generateState rnd
  let ss' := storeState ss state
  if cfg.clientId = "" then
    (.error "Missing required Spotify environment variables: NEXT_PUBLIC_SPOTIFY_CLIENT_ID", ss')
  else
    (.ok [("response_type", "code"),
          ("client_id", cfg.clientId),
          ("scope", cfg.scopes),
          ("redirect_uri", cfg.redirectUri),
          ("state", state)], ss')

/-- Model of `handleAuthCallback` (spotifyApi.js): consume and check the stored
anti-CSRF state (`state !== storedState` throws — note strict inequality
against a possibly-null stored value), consume the PKCE verifier, then
exchange the code at the token endpoint. The final component counts
token-endpoint requests issued by the call. -/
def handleAuthCallback (c : Client) (ss : SessionStore) (_code state : String)
    (resp : TokenFetchResult) (now : Int) :
    Except String Bool × Client × SessionStore × Nat :=
  let rs := retrieveState ss
  if rs.1 ≠ some state then
    (.error "Invalid state parameter", c, rs.2, 0)
  else
    let rv := retrievePKCEVerifier rs.2
    if truthyStr rv.1 = false then
      (.error "Missing PKCE code verifier", c, rv.2, 0)
    else
      match resp with
      | .success tokens => (.ok true, setTokens c tokens now, rv.2, 1)
      | .failure => (.error "Token exchange failed", c, rv.2, 1)

/-- Result of the server-side GET callback route: a redirect to `/` with an
error query parameter, or a redirect home that sets the token cookies. -/
inductive RouteResult where
  | redirectError (msg : String)
  | redirectHome (accessToken : String) (refreshToken : Option String)
  deriving Repr, DecidableEq

/-- The GET handler of `src/app/api/auth/callback/spotify/route.js`:
validates the configuration, handles the `error` parameter, requires `code`
and `state` to be present — and then exchanges the code at the token
endpoint without any comparison of `state` against a stored value (the
source comments say PKCE/state validation is skipped on this path). The
second component counts token-endpoint requests issued. -/
def spotifyCallbackGET (configOk : Bool) (code state error : Option String)
    (resp : TokenFetchResult) : RouteResult × Nat :=
  if configOk = false then (.redirectError "callback_handler_error", 0)
  else if truthyStr error then (.redirectError "oauth_error", 0)
  else if (truthyStr code && truthyStr state) = false then
    (.redirectError "missing_parameters", 0)
  else
    match resp with
    | .failure => (.redirectError "token_exchange_failed", 1)
    | .success tokens => (.redirectHome tokens.access_token tokens.refresh_token, 1)

/-- Status of one `fetch` against the Spotify Web API, as distinguished by
`makeApiRequest`: ok with a JSON body, a 401, or another non-ok status. -/
inductive ApiStatus where
  | ok (body : String)
  | unauthorized
  | otherError
  deriving Repr, DecidableEq

/-- Response oracles standing in for the network: the `n`-th Web-API fetch
of a run returns `api n`, the `n`-th token-endpoint refresh fetch settles as
`refresh n`. -/
structure NetOracle where
  api : Nat → ApiStatus
  refresh : Nat → TokenFetchResult

/-- Outcome of a `makeApiRequest` run; `outOfFuel` marks a run still
recursing when the fuel bound is reached (the source recursion has no
built-in bound). -/
inductive ApiOutcome where
  | success (body : String)
  | error (msg : String)
  | outOfFuel
  deriving Repr, DecidableEq

/-- Proactive-refresh guard at the top of `makeApiRequest`:
`this.tokenExpiry && new Date() >= this.tokenExpiry && this.refreshToken`. -/
def needsProactiveRefresh (c : Client) (now : Int) : Bool :=
  (match c.state.tokenExpiry with
   | some e => decide (e ≤ now)
   | none => false) && truthyStr c.state.refreshToken

/-- Model of `makeApiRequest` (spotifyApi.js), fuel-bounded. Arguments `apiIdx` and
`refIdx` count Web-API fetches and token-endpoint refresh fetches made so
far (feeding the oracles); the run returns the final counters. Steps of the
source, in order: proactive refresh when the stored expiry has passed (a
thrown refresh error propagates), the `!this.accessToken` guard, the API
fetch, and on a 401 either refresh-and-recurse (when a refresh token is
truthy) or clear tokens and throw `Authentication required`. -/
def makeApiRequest (o : NetOracle) (now : Int) (fuel : Nat) (c : Client)
    (apiIdx refIdx : Nat) : ApiOutcome × Client × Nat × Nat :=
  match fuel with
  | 0 => (.outOfFuel, c, apiIdx, refIdx)
  | fuel' + 1 =>
    let pro : Except (String × Client × Nat) (Client × Nat) :=
      if needsProactiveRefresh c now then
        match refreshAccessToken c now (o.refresh refIdx) with
        | (.error e, c', n) => .error (e, c', refIdx + n)
        | (.ok _, c', n) => .ok (c', refIdx + n)
      else .ok (c, refIdx)
    match pro with
    | .error (e, c', r') => (.error e, c', apiIdx, r')
    | .ok (c1, r1) =>
      if truthyStr c1.state.accessToken = false then
        (.error "No access token available. Please authenticate first.", c1, apiIdx, r1)
      else
        match o.api apiIdx with
        | .ok body => (.success body, c1, apiIdx + 1, r1)
        | .otherError => (.error "Spotify API error", c1, apiIdx + 1, r1)
        | .unauthorized =>
          if truthyStr c1.state.refreshToken then
            match refreshAccessToken c1 now (o.refresh r1) with
            | (.error e, c2, n) => (.error e, c2, apiIdx + 1, r1 + n)
            | (.ok _, c2, n) => makeApiRequest o now fuel' c2 (apiIdx + 1) (r1 + n)
          else
            (.error "Authentication required", clearStoredTokens c1, apiIdx + 1, r1)

/-- Observable state of the `SpotifyAuthProvider` context
(`isAuthenticated`, `isLoading`, `error`, `user`, `accessToken`). -/
structure Snapshot where
  isAuthenticated : Bool
  isLoading : Bool
  error : Option String
  user : Option String
  accessToken : Option String
  deriving Repr, DecidableEq

/-- The `refreshToken` callback of `SpotifyAuthContext.jsx`: awaits
`refreshAccessToken`, publishes the new access token, verifies it with a
profile fetch (`getCurrentUser`, i.e. `makeApiRequest`), and on any error in
that sequence resets the snapshot to an unauthenticated state with the error
message. Returns the snapshot, the client, and the final fetch counters. -/
def contextRefreshToken (snap : Snapshot) (c : Client) (now : Int) (o : NetOracle)
    (fuel apiIdx refIdx : Nat) : Snapshot × Client × Nat × Nat :=
  match refreshAccessToken c now (o.refresh refIdx) with
  | (.error e, c', n) =>
      ({ snap with
          error := some e, isAuthenticated := false, accessToken := none, user := none },
        c', apiIdx, refIdx + n)
  | (.ok _, c', n) =>
      let tok := c'.state.accessToken
      match makeApiRequest o now fuel c' apiIdx (refIdx + n) with
      | (.success body, c'', a', r') =>
          ({ snap with
              accessToken := tok, user := some body, isAuthenticated := true, error := none },
            c'', a', r')
      | (.error e, c'', a', r') =>
          ({ snap with
              error := some e, isAuthenticated := false, accessToken := none, user := none },
            c'', a', r')
      | (.outOfFuel, c'', a', r') => (snap, c'', a', r')

/-- Model of `checkAuthStatus` (SpotifyAuthContext.jsx): sets the busy flag, takes
the `isAuthenticated()` snapshot of the client, and only when it is true
publishes the access token and verifies it with a profile fetch, falling
back to `refreshToken()` when that fetch fails; when it is false the
provider reports unauthenticated directly. Returns the snapshot, the
client, and the number of Web-API and token-endpoint fetches made. -/
def checkAuthStatus (snap : Snapshot) (c : Client) (now : Int) (o : NetOracle)
    (fuel : Nat) : Snapshot × Client × Nat × Nat :=
  let snap1 := { snap with isLoading := true }
  let authed := isAuthenticated c.state now
  let snap2 := { snap1 with isAuthenticated := authed }
  if authed then
    let snap3 := { snap2 with accessToken := c.state.accessToken }
    match makeApiRequest o now fuel c 0 0 with
    | (.success body, c', a, r) =>
        ({ snap3 with user := some body, isLoading := false }, c', a, r)
    | (.error _, c', a, r) =>
        let rr := contextRefreshToken snap3 c' now o fuel a r
        ({ rr.1 with isLoading := false }, rr.2.1, rr.2.2.1, rr.2.2.2)
    | (.outOfFuel, c', a, r) => (snap2, c', a, r)
  else
    ({ snap2 with isLoading := false }, c, 0, 0)

/-- Phase of one asynchronous `refreshAccessToken` invocation on the
cooperative event loop: not yet started, suspended at its `await fetch`, or
completed with a result. -/
inductive TaskPhase where
  | ready
  | suspendedAtFetch
  | completed (r : Except String Bool)
  deriving Repr

/-- Two concurrently triggered refresh invocations (for example the
50-minute interval of `SpotifyAuthContext.jsx` and a 401-triggered refresh
landing in the same tick) sharing the one client, with a counter of
token-endpoint requests issued. -/
structure RefreshWorld where
  client : Client
  taskA : TaskPhase
  taskB : TaskPhase
  tokenRequests : Nat
  deriving Repr

/-- Names for the two concurrent refresh tasks. -/
inductive TaskId where
  | A
  | B
  deriving Repr, DecidableEq

/-- Phase of the given task. -/
def getPhase (w : RefreshWorld) : TaskId → TaskPhase
  | .A => w.taskA
  | .B => w.taskB

/-- Replace the phase of the given task. -/
def setPhase (w : RefreshWorld) (t : TaskId) (p : TaskPhase) : RefreshWorld :=
  match t with
  | .A => { w with taskA := p }
  | .B => { w with taskB := p }

/-- Run a ready task's synchronous prefix (`refreshPrefix`): either it
throws immediately for want of a refresh token, or it issues its own fetch
against the token endpoint and suspends. The source consults no shared
in-flight handle before issuing the fetch. -/
def stepStart (w : RefreshWorld) (t : TaskId) : RefreshWorld :=
  match getPhase w t with
  | .ready =>
      match refreshPrefix w.client with
      | some e => setPhase w t (.completed (.error e))
      | none =>
          { setPhase w t .suspendedAtFetch with tokenRequests := w.tokenRequests + 1 }
  | _ => w

/-- Deliver a token-endpoint response to a suspended task, running its
resumption (`refreshResume`) against the current shared client. -/
def stepResume (w : RefreshWorld) (t : TaskId) (now : Int) (resp : TokenFetchResult) :
    RefreshWorld :=
  match getPhase w t with
  | .suspendedAtFetch =>
      let rc := refreshResume w.client now resp
      { setPhase w t (.completed rc.1) with client := rc.2 }
  | _ => w

/-- Claim-side alphabet check: a character of the unreserved URL-safe set
`A-Z a-z 0-9 - . _ ~` (RFC 3986 / RFC 7636). -/
def isUnreserved (ch : Char) : Bool :=
  ch.isAlpha || ch.isDigit || ch = '-' || ch = '.' || ch = '_' || ch = '~'

/-- Claim-side alphabet check: a character of the base64url alphabet
`A-Z a-z 0-9 - _` (no padding). -/
def isBase64UrlChar (ch : Char) : Bool :=
  ch.isAlpha || ch.isDigit || ch = '-' || ch = '_'

/-- Claim-side reading of the authenticated-state condition with presence
taken as field presence (`Option.isSome`): an access token field is present,
an expiry is present, and `now` is strictly before it. -/
def credentialPresentAndFresh (s : ClientState) (now : Int) : Bool :=
  s.accessToken.isSome &&
    (match s.tokenExpiry with
     | some e => decide (now < e)
     | none => false)

/-! ### Helper lemmas -/

/-- Persisting to storage never changes the in-memory token fields. -/
theorem saveTokensToStorage_state (c : Client) : (saveTokensToStorage c).state = c.state := by
  unfold saveTokensToStorage
  split <;> rfl

/-! ### C10 — characterization of the authenticated-state query -/

/-- C10 — counterexample: the claim reads "isAuthenticated() returns true
exactly when an access token is present, an expiry instant is present, and
the current time is strictly before that expiry". A state holding the
present-but-empty access token `""` with an unexpired expiry satisfies that
condition, yet `isAuthenticated` returns `false`, because the source tests
JS truthiness (`!!this.accessToken`), under which the empty string counts as
absent. -/
theorem isAuthenticated_presence_iff_refuted :
    credentialPresentAndFresh ⟨some "", some "refresh-tok", some 100⟩ 0 = true ∧
    isAuthenticated ⟨some "", some "refresh-tok", some 100⟩ 0 = false := by
  constructor <;> rfl

/-- C10 (amended): `isAuthenticated` returns true exactly when a *nonempty*
access token is present, an expiry instant is present, and the current time
is strictly before it; a credential whose expiry has passed is reported
unauthenticated; and the result never depends on the refresh token (the
query reads only the in-memory fields and performs no call). -/
theorem isAuthenticated_characterization_amended (s : ClientState) (now : Int) :
    (isAuthenticated s now = true ↔
      (∃ t, s.accessToken = some t ∧ t ≠ "") ∧ (∃ e, s.tokenExpiry = some e ∧ now < e)) ∧
    (∀ e, s.tokenExpiry = some e → e ≤ now → isAuthenticated s now = false) ∧
    (∀ rt, isAuthenticated ⟨s.accessToken, rt, s.tokenExpiry⟩ now = isAuthenticated s now) := by
  refine ⟨?_, ?_, fun rt => rfl⟩
  · obtain ⟨a, r, e⟩ := s
    cases a <;> cases e <;> simp [isAuthenticated, truthyStr]
  · intro e he hle
    have hnl : ¬ (now < e) := not_lt.mpr hle
    simp [isAuthenticated, he, hnl]

/-- C10 — witness for the amended characterization at concrete inputs. -/
theorem isAuthenticated_characterization_amended_witness :
    isAuthenticated ⟨some "tok", some "r", some 100⟩ 0 = true ∧
    isAuthenticated ⟨some "tok", some "r", some 100⟩ 200 = false := by
  constructor
  · exact (isAuthenticated_characterization_amended ⟨some "tok", some "r", some 100⟩ 0).1.mpr
      ⟨⟨"tok", rfl, by decide⟩, ⟨100, rfl, by decide⟩⟩
  · exact (isAuthenticated_characterization_amended ⟨some "tok", some "r", some 100⟩ 200).2.1
      100 rfl (by decide)

/-! ### C8 — refresh-token retention across refreshes -/

/-- C8 — counterexample: the claim reads "when the response includes a
refresh_token, the new value replaces the old one". A refresh response that
includes `refresh_token` with the empty-string value does not replace the
stored token: the source merges with `tokens.refresh_token ||
this.refreshToken`, and `""` is falsy, so the old value is retained. -/
theorem refresh_token_replacement_empty_refuted :
    ((refreshAccessToken ⟨⟨some "acc", some "old-refresh", some 1000⟩, none⟩ 0
        (.success ⟨"new-acc", some "", 3600⟩)).2.1.state.refreshToken = some "old-refresh") ∧
    ("old-refresh" ≠ "") := by
  constructor
  · rfl
  · decide

/-- C8 (amended): on a successful refresh, an omitted `refresh_token` field
retains the prior refresh token; a nonempty `refresh_token` value replaces
it; an included-but-empty (`""`, falsy) value is treated like an omitted one
and also retains the prior token. -/
theorem refresh_token_retention_amended (c : Client) (now : Int) (tks : TokenResponse)
    (h : truthyStr c.state.refreshToken = true) :
    (tks.refresh_token = none →
      (refreshAccessToken c now (.success tks)).2.1.state.refreshToken
        = c.state.refreshToken) ∧
    (∀ t, tks.refresh_token = some t → t ≠ "" →
      (refreshAccessToken c now (.success tks)).2.1.state.refreshToken = some t) ∧
    (tks.refresh_token = some "" →
      (refreshAccessToken c now (.success tks)).2.1.state.refreshToken
        = c.state.refreshToken) := by
  have hpre : refreshPrefix c = none := by simp [refreshPrefix, h]
  have hval : (refreshAccessToken c now (.success tks)).2.1.state.refreshToken
      = jsOr tks.refresh_token c.state.refreshToken := by
    simp only [refreshAccessToken, hpre, refreshResume, setTokens]
    rw [saveTokensToStorage_state]
  refine ⟨?_, ?_, ?_⟩
  · intro hn
    rw [hval, hn]
    rfl
  · intro t ht htne
    rw [hval, ht]
    simp [jsOr, htne]
  · intro he
    rw [hval, he]
    rfl

/-- C8 — witness for the amended retention behavior at concrete inputs. -/
theorem refresh_token_retention_amended_witness :
    ((refreshAccessToken ⟨⟨some "a", some "old", some 9⟩, none⟩ 0
        (.success ⟨"b", none, 60⟩)).2.1.state.refreshToken = some "old") ∧
    ((refreshAccessToken ⟨⟨some "a", some "old", some 9⟩, none⟩ 0
        (.success ⟨"b", some "rot", 60⟩)).2.1.state.refreshToken = some "rot") := by
  constructor
  · exact (refresh_token_retention_amended ⟨⟨some "a", some "old", some 9⟩, none⟩ 0
      ⟨"b", none, 60⟩ (by decide)).1 rfl
  · exact (refresh_token_retention_amended ⟨⟨some "a", some "old", some 9⟩, none⟩ 0
      ⟨"b", some "rot", 60⟩ (by decide)).2.1 "rot" rfl (by decide)

/-! ### C7 — failed refresh clears the credential everywhere -/

/-- C7: whenever a refresh operation's token-endpoint request fails, the
credential is cleared from memory (all three fields) and from the durable
store, and the provider snapshot becomes unauthenticated with an error
reason and no token, user or profile left behind — for every starting
client state, so no reachable state keeps a partial credential after a
failed refresh. -/
theorem failed_refresh_clears_credential_and_unauthenticates
    (snap : Snapshot) (c : Client) (now : Int) (o : NetOracle) (fuel apiIdx refIdx : Nat)
    (hrt : truthyStr c.state.refreshToken = true) (hfail : o.refresh refIdx = .failure) :
    ((contextRefreshToken snap c now o fuel apiIdx refIdx).2.1.state = ⟨none, none, none⟩) ∧
    ((contextRefreshToken snap c now o fuel apiIdx refIdx).2.1.store = none) ∧
    ((contextRefreshToken snap c now o fuel apiIdx refIdx).1.isAuthenticated = false) ∧
    ((contextRefreshToken snap c now o fuel apiIdx refIdx).1.error
        = some "Token refresh failed") ∧
    ((contextRefreshToken snap c now o fuel apiIdx refIdx).1.accessToken = none) ∧
    ((contextRefreshToken snap c now o fuel apiIdx refIdx).1.user = none) := by
  have hpre : refreshPrefix c = none := by simp [refreshPrefix, hrt]
  have hrun : refreshAccessToken c now (o.refresh refIdx)
      = (.error "Token refresh failed", clearStoredTokens c, 1) := by
    simp [refreshAccessToken, hpre, hfail, refreshResume]
  simp [contextRefreshToken, hrun, clearStoredTokens]

/-- C7 — witness: a concrete failed refresh leaves the cleared, signed-out
configuration. -/
theorem failed_refresh_clears_credential_witness :
    ((contextRefreshToken ⟨true, false, none, some "user", some "acc"⟩
        ⟨⟨some "acc", some "ref", some 5⟩, some ⟨some "acc", some "ref", some 5⟩⟩ 10
        ⟨fun _ => .otherError, fun _ => .failure⟩ 3 0 0).2.1.state = ⟨none, none, none⟩) ∧
    ((contextRefreshToken ⟨true, false, none, some "user", some "acc"⟩
        ⟨⟨some "acc", some "ref", some 5⟩, some ⟨some "acc", some "ref", some 5⟩⟩ 10
        ⟨fun _ => .otherError, fun _ => .failure⟩ 3 0 0).1.isAuthenticated = false) := by
  have h := failed_refresh_clears_credential_and_unauthenticates
    ⟨true, false, none, some "user", some "acc"⟩
    ⟨⟨some "acc", some "ref", some 5⟩, some ⟨some "acc", some "ref", some 5⟩⟩ 10
    ⟨fun _ => .otherError, fun _ => .failure⟩ 3 0 0 (by decide) rfl
  exact ⟨h.1, h.2.2.1⟩

/-! ### C3 — the authorization redirect carries no PKCE challenge -/

/-- C3 — evaluation of the defect: for every invocation of `initiateAuth`
that yields a redirect, the query parameters are exactly `response_type`,
`client_id`, `scope`, `redirect_uri` and `state` — no `code_challenge` and
no `code_challenge_method` parameter is ever present — and no PKCE verifier
is stored for the later callback. The spec (and the repository's own design
notes and pkce.js, which implement RFC 7636 and whose verifier
`handleAuthCallback` later demands) requires the S256 challenge in this
redirect. -/
theorem initiateAuth_omits_code_challenge (cfg : SpotifyConfig) (rnd : Nat → Nat)
    (ss : SessionStore) (ps : List (String × String))
    (h : (initiateAuth cfg rnd ss).1 = .ok ps) :
    (∀ kv ∈ ps, kv.1 ≠ "code_challenge" ∧ kv.1 ≠ "code_challenge_method") ∧
    ((initiateAuth cfg rnd ss).2.codeVerifier = ss.codeVerifier) := by
  constructor
  · unfold initiateAuth at h
    by_cases hc : cfg.clientId = ""
    · simp [hc] at h
    · simp only [hc, if_false, ite_false] at h
      rw [Except.ok.injEq] at h
      subst h
      intro kv hkv
      simp only [List.mem_cons, List.mem_singleton, List.not_mem_nil, or_false] at hkv
      rcases hkv with rfl | rfl | rfl | rfl | rfl <;> exact ⟨by simp, by simp⟩
  · unfold initiateAuth
    split <;> rfl

/-- C3 — witness: a concrete invocation produces exactly the five
challenge-free parameters. -/
theorem initiateAuth_omits_code_challenge_witness :
    ((initiateAuth ⟨"cid", "sc", "uri"⟩ (fun _ => 0) ⟨none, none⟩).1
      = .ok [("response_type", "code"), ("client_id", "cid"), ("scope", "sc"),
             ("redirect_uri", "uri"), ("state", "AAAAAAAAAAAAAAAA")]) ∧
    (∀ kv ∈ [("response_type", "code"), ("client_id", "cid"), ("scope", "sc"),
             ("redirect_uri", "uri"), (("state" : String), ("AAAAAAAAAAAAAAAA" : String))],
      kv.1 ≠ "code_challenge" ∧ kv.1 ≠ "code_challenge_method") := by
  refine ⟨rfl, ?_⟩
  exact (initiateAuth_omits_code_challenge ⟨"cid", "sc", "uri"⟩ (fun _ => 0) ⟨none, none⟩
    [("response_type", "code"), ("client_id", "cid"), ("scope", "sc"),
     ("redirect_uri", "uri"), ("state", "AAAAAAAAAAAAAAAA")] rfl).1

/-! ### C4 — the server-redirect callback skips the CSRF state check -/

/-- C4 — evaluation of the defect: the GET callback route exchanges the
authorization code at the token endpoint (one request issued, cookies set)
for a `state` value that differs from whatever the client stored — the
route performs no state comparison at all, while the claim requires every
code-exchange path to fail on a mismatched state without contacting the
token endpoint. -/
theorem callback_get_exchanges_code_despite_state_mismatch :
    ((spotifyCallbackGET true (some "auth-code") (some "forged-state") none
        (.success ⟨"tok", some "rtok", 3600⟩)).2 = 1) ∧
    ((spotifyCallbackGET true (some "auth-code") (some "forged-state") none
        (.success ⟨"tok", some "rtok", 3600⟩)).1 = .redirectHome "tok" (some "rtok")) ∧
    ("forged-state" ≠ "stored-state") := by
  exact ⟨rfl, rfl, by decide⟩

/-! ### C1 — concurrent refresh triggers are not single-flighted -/

/-- C1 — counterexample: two refresh invocations triggered in the same tick
(both run their synchronous prefix before either fetch settles, as under
the cooperative event loop) issue two token-endpoint requests, not the one
request the single-flight claim demands. -/
theorem concurrent_refresh_single_flight_refuted :
    ((stepStart (stepStart
        ⟨⟨⟨some "tok", some "rt", some 1000⟩, none⟩, .ready, .ready, 0⟩ .A) .B).tokenRequests
      = 2) ∧
    ¬ ((stepStart (stepStart
        ⟨⟨⟨some "tok", some "rt", some 1000⟩, none⟩, .ready, .ready, 0⟩ .A) .B).tokenRequests
      = 1) := by
  constructor
  · rfl
  · intro hcontra
    simp [stepStart, getPhase, setPhase, refreshPrefix, truthyStr] at hcontra

/-- C1 (amended): for every client state holding a truthy refresh token, two
refresh triggers landing in the same tick each issue their own
token-endpoint request (two in total): `refreshAccessToken` consults no
shared in-flight handle before its fetch, so concurrent triggers do not
collapse into a single in-flight operation. -/
theorem concurrent_refresh_triggers_each_issue_request (c : Client)
    (h : truthyStr c.state.refreshToken = true) :
    (stepStart (stepStart ⟨c, .ready, .ready, 0⟩ .A) .B).tokenRequests = 2 := by
  have hpre : refreshPrefix c = none := by simp [refreshPrefix, h]
  simp [stepStart, getPhase, setPhase, hpre]

/-- C1 — witness: the two-request outcome at a concrete client. -/
theorem concurrent_refresh_triggers_witness :
    (stepStart (stepStart
      ⟨⟨⟨some "a", some "r", some 7⟩, none⟩, .ready, .ready, 0⟩ .A) .B).tokenRequests = 2 := by
  exact concurrent_refresh_triggers_each_issue_request ⟨⟨some "a", some "r", some 7⟩, none⟩
    (by decide)

/-! ### C6 — startup with an expired stored credential -/

/-- C6 — counterexample: on process start with a stored credential whose
expiry is in the past (access and refresh tokens present, `expiresAt = 100`,
now `200`), `checkAuthStatus` makes zero token-endpoint requests and zero
Web-API requests — it never attempts the refresh the claim requires — and
reports unauthenticated directly. -/
theorem startup_expired_refresh_attempt_refuted :
    ((checkAuthStatus ⟨false, true, none, none, none⟩
        ⟨⟨some "tok", some "rt", some 100⟩, some ⟨some "tok", some "rt", some 100⟩⟩ 200
        ⟨fun _ => .otherError, fun _ => .failure⟩ 5).2.2.2 = 0) ∧
    ((checkAuthStatus ⟨false, true, none, none, none⟩
        ⟨⟨some "tok", some "rt", some 100⟩, some ⟨some "tok", some "rt", some 100⟩⟩ 200
        ⟨fun _ => .otherError, fun _ => .failure⟩ 5).2.2.1 = 0) ∧
    ((checkAuthStatus ⟨false, true, none, none, none⟩
        ⟨⟨some "tok", some "rt", some 100⟩, some ⟨some "tok", some "rt", some 100⟩⟩ 200
        ⟨fun _ => .otherError, fun _ => .failure⟩ 5).1.isAuthenticated = false) := by
  exact ⟨rfl, rfl, rfl⟩

/-- C6 (amended): on process start with a stored credential whose expiry is
in the past, the session manager reports `Unauthenticated` directly: no
refresh is attempted, no network request of any kind is made, and the
client is left untouched — in particular it never reports a stale
`Authenticated`. -/
theorem startup_expired_credential_reports_unauthenticated
    (snap : Snapshot) (c : Client) (now : Int) (o : NetOracle) (fuel : Nat) (e : Int)
    (hexp : c.state.tokenExpiry = some e) (hpast : e ≤ now) :
    ((checkAuthStatus snap c now o fuel).1.isAuthenticated = false) ∧
    ((checkAuthStatus snap c now o fuel).2.2.1 = 0) ∧
    ((checkAuthStatus snap c now o fuel).2.2.2 = 0) ∧
    ((checkAuthStatus snap c now o fuel).2.1 = c) := by
  have hnl : ¬ (now < e) := not_lt.mpr hpast
  have hauth : isAuthenticated c.state now = false := by
    simp [isAuthenticated, hexp, hnl]
  simp [checkAuthStatus, hauth]

/-- C6 — witness for the amended behavior at a concrete expired credential. -/
theorem startup_expired_credential_witness :
    ((checkAuthStatus ⟨false, true, none, none, none⟩
        ⟨⟨some "a", some "r", some 1⟩, none⟩ 9
        ⟨fun _ => .ok "me", fun _ => .success ⟨"n", none, 60⟩⟩ 4).1.isAuthenticated = false) ∧
    ((checkAuthStatus ⟨false, true, none, none, none⟩
        ⟨⟨some "a", some "r", some 1⟩, none⟩ 9
        ⟨fun _ => .ok "me", fun _ => .success ⟨"n", none, 60⟩⟩ 4).2.2.2 = 0) := by
  have h := startup_expired_credential_reports_unauthenticated
    ⟨false, true, none, none, none⟩ ⟨⟨some "a", some "r", some 1⟩, none⟩ 9
    ⟨fun _ => .ok "me", fun _ => .success ⟨"n", none, 60⟩⟩ 4 1 rfl (by decide)
  exact ⟨h.1, h.2.2.1⟩

/-! ### C5 — replayed callback cannot re-exchange the code -/

/-- A successful `handleAuthCallback` leaves the session storage with both
the OAuth state and PKCE verifier removed (they are deleted on read). -/
theorem handleAuthCallback_ok_clears (c : Client) (ss : SessionStore)
    (code state : String) (resp : TokenFetchResult) (now : Int)
    (h : (handleAuthCallback c ss code state resp now).1 = .ok true) :
    (handleAuthCallback c ss code state resp now).2.2.1 = ⟨none, none⟩ := by
  obtain ⟨ost, over⟩ := ss
  rcases ost with _ | st0
  · simp [handleAuthCallback, retrieveState] at h
  · by_cases hst : st0 = state
    · subst hst
      rcases over with _ | v
      · simp [handleAuthCallback, retrieveState, retrievePKCEVerifier, truthyStr] at h
      · by_cases hv : v = ""
        · subst hv
          simp [handleAuthCallback, retrieveState, retrievePKCEVerifier, truthyStr] at h
        · cases resp with
          | success tokens =>
              simp [handleAuthCallback, retrieveState, retrievePKCEVerifier, truthyStr, hv]
          | failure =>
              simp [handleAuthCallback, retrieveState, retrievePKCEVerifier, truthyStr, hv] at h
    · simp [handleAuthCallback, retrieveState, hst] at h

/-- C5: after a first successful `handleAuthCallback`, the stored
pending-authorization data (anti-CSRF state and PKCE verifier) is gone, and
a second invocation with the same code/state pair fails with the
invalid-state error while issuing zero requests to the token endpoint — the
code is never re-exchanged. -/
theorem second_callback_fails_without_reexchange
    (c c2 : Client) (ss : SessionStore) (code state : String)
    (resp resp2 : TokenFetchResult) (now now2 : Int)
    (hfirst : (handleAuthCallback c ss code state resp now).1 = .ok true) :
    (((handleAuthCallback c ss code state resp now).2.2.1).oauthState = none) ∧
    (((handleAuthCallback c ss code state resp now).2.2.1).codeVerifier = none) ∧
    ((handleAuthCallback c2 ((handleAuthCallback c ss code state resp now).2.2.1)
        code state resp2 now2).1 = .error "Invalid state parameter") ∧
    ((handleAuthCallback c2 ((handleAuthCallback c ss code state resp now).2.2.1)
        code state resp2 now2).2.2.2 = 0) := by
  have hclear := handleAuthCallback_ok_clears c ss code state resp now hfirst
  rw [hclear]
  refine ⟨rfl, rfl, ?_, ?_⟩ <;> simp [handleAuthCallback, retrieveState]

/-- C5 — witness: a concrete successful first exchange followed by the
failing, request-free replay. -/
theorem second_callback_fails_witness :
    ((handleAuthCallback ⟨⟨none, none, none⟩, none⟩ ⟨some "st", some "ver"⟩ "code" "st"
        (.success ⟨"acc", some "ref", 3600⟩) 0).1 = .ok true) ∧
    ((handleAuthCallback ⟨⟨none, none, none⟩, none⟩
        ((handleAuthCallback ⟨⟨none, none, none⟩, none⟩ ⟨some "st", some "ver"⟩ "code" "st"
            (.success ⟨"acc", some "ref", 3600⟩) 0).2.2.1) "code" "st"
        (.success ⟨"acc", some "ref", 3600⟩) 0).1 = .error "Invalid state parameter") := by
  refine ⟨rfl, ?_⟩
  exact (second_callback_fails_without_reexchange
    ⟨⟨none, none, none⟩, none⟩ ⟨⟨none, none, none⟩, none⟩ ⟨some "st", some "ver"⟩ "code" "st"
    (.success ⟨"acc", some "ref", 3600⟩) (.success ⟨"acc", some "ref", 3600⟩) 0 0 rfl).2.2.1

/-! ### C2 — the gateway's 401 handling is not retry-once -/

/-- C2 — counterexample: under a backend that answers 401 to every call
while refreshes succeed, the gateway issues three API calls and three
refreshes within its first three iterations and never surfaces
`Authentication required` — the source retries through an unbounded
recursive self-call, not the claimed single retry with the second 401
surfaced as an authentication-required error. -/
theorem gateway_retry_once_refuted :
    ((makeApiRequest ⟨fun _ => .unauthorized, fun _ => .success ⟨"fresh-tok", none, 3600⟩⟩
        0 3 ⟨⟨some "tok", some "rt", some 1000⟩, none⟩ 0 0).2.2.1 = 3) ∧
    ((makeApiRequest ⟨fun _ => .unauthorized, fun _ => .success ⟨"fresh-tok", none, 3600⟩⟩
        0 3 ⟨⟨some "tok", some "rt", some 1000⟩, none⟩ 0 0).2.2.2 = 3) ∧
    ((makeApiRequest ⟨fun _ => .unauthorized, fun _ => .success ⟨"fresh-tok", none, 3600⟩⟩
        0 3 ⟨⟨some "tok", some "rt", some 1000⟩, none⟩ 0 0).1
      ≠ .error "Authentication required") := by
  refine ⟨rfl, rfl, ?_⟩
  intro hcontra
  simp [makeApiRequest, needsProactiveRefresh, truthyStr, refreshAccessToken, refreshPrefix,
    refreshResume, setTokens, saveTokensToStorage, jsOr] at hcontra

/-- C2 (amended): on receiving a 401 the gateway refreshes and retries
through an unbounded recursive self-call rather than a single retry. Two
behaviors do hold: (a) in the scenario "401 once, refresh succeeds, retry
succeeds", the caller receives the successful response with exactly one
refresh and two API calls; (b) a 401 with no truthy refresh token clears
the stored tokens and surfaces `Authentication required` with no retry.
When the retried call also returns 401 and a refresh token remains, the
gateway refreshes and retries again instead of surfacing an
authentication-required error (see the counterexample). -/
theorem gateway_retry_behavior_amended :
    (∀ (tok rt body newTok : String) (store : Option ClientState) (o : NetOracle)
        (now exp eIn : Int),
      tok ≠ "" → rt ≠ "" → now < exp →
      o.api 0 = .unauthorized → o.api 1 = .ok body →
      o.refresh 0 = .success ⟨newTok, none, eIn⟩ → newTok ≠ "" → 0 < eIn →
      ((makeApiRequest o now 2 ⟨⟨some tok, some rt, some exp⟩, store⟩ 0 0).1
          = .success body) ∧
      ((makeApiRequest o now 2 ⟨⟨some tok, some rt, some exp⟩, store⟩ 0 0).2.2.1 = 2) ∧
      ((makeApiRequest o now 2 ⟨⟨some tok, some rt, some exp⟩, store⟩ 0 0).2.2.2 = 1)) ∧
    (∀ (tok : String) (rt : Option String) (texp : Option Int) (store : Option ClientState)
        (o : NetOracle) (now : Int) (fuel : Nat),
      tok ≠ "" → truthyStr rt = false → o.api 0 = .unauthorized →
      makeApiRequest o now (fuel + 1) ⟨⟨some tok, rt, texp⟩, store⟩ 0 0
        = (.error "Authentication required",
            clearStoredTokens ⟨⟨some tok, rt, texp⟩, store⟩, 1, 0)) := by
  constructor
  · intro tok rt body newTok store o now exp eIn htok hrt hnow hapi0 hapi1 href hnew heIn
    have h1 : ¬ (exp ≤ now) := not_le.mpr hnow
    have h2 : ¬ (now + eIn * 1000 ≤ now) := by omega
    simp [makeApiRequest, needsProactiveRefresh, truthyStr, h1, h2, htok, hrt, hapi0, hapi1,
      href, hnew, refreshAccessToken, refreshPrefix, refreshResume, setTokens,
      saveTokensToStorage, jsOr]
  · intro tok rt texp store o now fuel htok hrt hapi0
    have htok' : truthyStr (some tok) = true := by simp [truthyStr, htok]
    simp [makeApiRequest, needsProactiveRefresh, htok', hrt, hapi0, clearStoredTokens]

/-- C2 — witness for both amended behaviors at concrete inputs. -/
theorem gateway_retry_behavior_amended_witness :
    ((makeApiRequest
        ⟨fun n => if n = 0 then .unauthorized else .ok "profile",
          fun _ => .success ⟨"nt", none, 3600⟩⟩
        0 2 ⟨⟨some "t", some "r", some 50⟩, none⟩ 0 0).1 = .success "profile") ∧
    (makeApiRequest ⟨fun _ => .unauthorized, fun _ => .failure⟩ 0 1
        ⟨⟨some "t", none, some 50⟩, none⟩ 0 0
      = (.error "Authentication required",
          clearStoredTokens ⟨⟨some "t", none, some 50⟩, none⟩, 1, 0)) := by
  constructor
  · exact (gateway_retry_behavior_amended.1 "t" "r" "profile" "nt" none
      ⟨fun n => if n = 0 then .unauthorized else .ok "profile",
        fun _ => .success ⟨"nt", none, 3600⟩⟩
      0 50 3600 (by decide) (by decide) (by decide) rfl rfl rfl (by decide) (by decide)).1
  · exact gateway_retry_behavior_amended.2 "t" none (some 50) none
      ⟨fun _ => .unauthorized, fun _ => .failure⟩ 0 0 (by decide) rfl rfl

/-! ### C9 — shape of the PKCE verifier/challenge pair -/

/-- Indexing with a default that is itself a member stays inside the list. -/
theorem getD_mem_of_default_mem {l : List Char} {d : Char} (hd : d ∈ l) (n : Nat) :
    l.getD n d ∈ l := by
  by_cases h : n < l.length
  · rw [List.getD_eq_getElem l d h]
    exact List.getElem_mem h
  · rw [List.getD_eq_default l d (le_of_not_lt h)]
    exact hd

/-- Every character drawn from the `possible` table is unreserved. -/
theorem possibleChars_getD_unreserved (n : Nat) :
    isUnreserved (possibleChars.getD n 'A') = true := by
  have hmem : possibleChars.getD n 'A' ∈ possibleChars :=
    getD_mem_of_default_mem (by decide) n
  have hall : possibleChars.all isUnreserved = true := by decide
  exact List.all_eq_true.mp hall _ hmem

/-- Every character emitted by the base64 encoder is from the base64
alphabet or is the padding character. -/
theorem base64EncodeChunks_mem (bytes : List Nat) (ch : Char)
    (h : ch ∈ base64EncodeChunks bytes) : ch ∈ base64Chars ∨ ch = '=' := by
  induction bytes using base64EncodeChunks.induct with
  | case1 =>
      simp [base64EncodeChunks] at h
  | case2 b0 =>
      simp only [base64EncodeChunks, List.mem_cons, List.not_mem_nil, or_false] at h
      rcases h with rfl | rfl | rfl | rfl
      · exact Or.inl (getD_mem_of_default_mem (by decide) _)
      · exact Or.inl (getD_mem_of_default_mem (by decide) _)
      · exact Or.inr rfl
      · exact Or.inr rfl
  | case3 b0 b1 =>
      simp only [base64EncodeChunks, List.mem_cons, List.not_mem_nil, or_false] at h
      rcases h with rfl | rfl | rfl | rfl
      · exact Or.inl (getD_mem_of_default_mem (by decide) _)
      · exact Or.inl (getD_mem_of_default_mem (by decide) _)
      · exact Or.inl (getD_mem_of_default_mem (by decide) _)
      · exact Or.inr rfl
  | case4 b0 b1 b2 rest ih =>
      simp only [base64EncodeChunks, List.mem_cons] at h
      rcases h with rfl | rfl | rfl | rfl | h
      · exact Or.inl (getD_mem_of_default_mem (by decide) _)
      · exact Or.inl (getD_mem_of_default_mem (by decide) _)
      · exact Or.inl (getD_mem_of_default_mem (by decide) _)
      · exact Or.inl (getD_mem_of_default_mem (by decide) _)
      · exact ih h

/-- Every character of a base64url-encoded string is from the base64url
alphabet (letters, digits, `-`, `_`) — in particular, never `=`. -/
theorem base64urlEncode_chars (bytes : List Nat) :
    ∀ ch ∈ (base64urlEncode bytes).toList, isBase64UrlChar ch = true := by
  intro ch hch
  simp only [base64urlEncode, String.toList] at hch
  rw [List.mem_filter] at hch
  obtain ⟨hmem, hne⟩ := hch
  rw [List.mem_map] at hmem
  obtain ⟨ch1, hch1, rfl⟩ := hmem
  rw [List.mem_map] at hch1
  obtain ⟨ch0, hch0, rfl⟩ := hch1
  rcases base64EncodeChunks_mem bytes ch0 hch0 with hb | rfl
  · have hall : base64Chars.all
        (fun c => isBase64UrlChar (replaceSlash (replacePlus c))) = true := by decide
    exact List.all_eq_true.mp hall ch0 hb
  · exfalso
    simp [replacePlus, replaceSlash] at hne

/-- C9: every PKCE pair consists of a verifier of exactly 128 characters,
each from the unreserved URL-safe alphabet, and a challenge that is the
base64url encoding of the SHA-256 digest of that verifier with every `=`
padding character removed (all its characters lie in the padding-free
base64url alphabet). -/
theorem pkce_pair_verifier_and_challenge_spec (rnd : Nat → Nat)
    (digest : String → List Nat) :
    ((generatePKCEPair rnd digest).1.length = 128) ∧
    (∀ ch ∈ (generatePKCEPair rnd digest).1.toList, isUnreserved ch = true) ∧
    ((generatePKCEPair rnd digest).2
      = base64urlEncode (digest (generatePKCEPair rnd digest).1)) ∧
    ('=' ∉ (generatePKCEPair rnd digest).2.toList) ∧
    (∀ ch ∈ (generatePKCEPair rnd digest).2.toList, isBase64UrlChar ch = true) := by
  refine ⟨?_, ?_, rfl, ?_, ?_⟩
  · simp [generatePKCEPair, generateRandomString, String.length]
  · intro ch hch
    simp only [generatePKCEPair, generateRandomString, String.toList, List.mem_map,
      List.mem_range] at hch
    obtain ⟨i, _, rfl⟩ := hch
    exact possibleChars_getD_unreserved _
  · intro hmem
    have h := base64urlEncode_chars (digest (generatePKCEPair rnd digest).1) '=' hmem
    simp [isBase64UrlChar] at h
  · exact base64urlEncode_chars (digest (generatePKCEPair rnd digest).1)

/-- C9 — witness at a concrete random stream and digest. -/
theorem pkce_pair_verifier_and_challenge_spec_witness :
    ((generatePKCEPair (fun _ => 0) (fun _ => [255, 255, 255])).1.length = 128) ∧
    (isUnreserved 'A' = true) ∧
    (isBase64UrlChar '_' = true) := by
  refine ⟨(pkce_pair_verifier_and_challenge_spec (fun _ => 0) (fun _ => [255, 255, 255])).1,
    ?_, ?_⟩
  · exact (pkce_pair_verifier_and_challenge_spec (fun _ => 0)
      (fun _ => [255, 255, 255])).2.1 'A' (by decide)
  · exact (pkce_pair_verifier_and_challenge_spec (fun _ => 0)
      (fun _ => [255, 255, 255])).2.2.2.2 '_' (by decide)

end Terera
